import Mathlib

/-!
# Odyssey: logger (`sources/logger.c`) and system supervisor (`sources/system.c`)

A shallow embedding of the text formatter of the logger and of the accept loop,
listener start-up, signal handler and supervisor of `system.c`, followed by the
properties established about them.

Conventions of the embedding:

* a `char *` argument is represented by the characters before its terminating NUL;
* calls into other components (machinarium, the router, the worker pool, libc) are
  recorded in a call trace, and the values they return are inputs of the model;
* `int` results are `Int`, compared with the same constants as in the source.
-/

namespace Odyssey

/-! ## `sources/logger.c` -/

/-- The eight event kinds of `od_logger_event_t`. -/
inductive od_logger_event_t where
  | OD_LOG
  | OD_LOG_ERROR
  | OD_LOG_CLIENT
  | OD_LOG_CLIENT_ERROR
  | OD_LOG_CLIENT_DEBUG
  | OD_LOG_SERVER
  | OD_LOG_SERVER_ERROR
  | OD_LOG_SERVER_DEBUG
  deriving DecidableEq, Repr

/-- Syslog priorities of `od_logsystem_prio_t`. -/
inductive od_logsystem_prio_t where
  | OD_LOGSYSTEM_INFO
  | OD_LOGSYSTEM_ERROR
  | OD_LOGSYSTEM_DEBUG
  deriving DecidableEq, Repr

/-- One row of the ident table: `ident_short` is `none` where the source has `NULL`. -/
structure od_logger_ident_t where
  syslog_prio : od_logsystem_prio_t
  ident : List Char
  ident_short : Option (List Char)
  deriving DecidableEq, Repr

open od_logger_event_t od_logsystem_prio_t in
/-- The table `od_logger_ident_tab`, indexed by the event kind. -/
def od_logger_ident_tab : od_logger_event_t → od_logger_ident_t
  | OD_LOG              => ⟨OD_LOGSYSTEM_INFO,  "info".toList,         none⟩
  | OD_LOG_ERROR        => ⟨OD_LOGSYSTEM_ERROR, "error".toList,        some "error".toList⟩
  | OD_LOG_CLIENT       => ⟨OD_LOGSYSTEM_INFO,  "client_info".toList,  none⟩
  | OD_LOG_CLIENT_ERROR => ⟨OD_LOGSYSTEM_ERROR, "client_error".toList, some "error".toList⟩
  | OD_LOG_CLIENT_DEBUG => ⟨OD_LOGSYSTEM_DEBUG, "client_debug".toList, some "debug".toList⟩
  | OD_LOG_SERVER       => ⟨OD_LOGSYSTEM_INFO,  "server_info".toList,  none⟩
  | OD_LOG_SERVER_ERROR => ⟨OD_LOGSYSTEM_ERROR, "server_error".toList, some "error".toList⟩
  | OD_LOG_SERVER_DEBUG => ⟨OD_LOGSYSTEM_DEBUG, "server_debug".toList, some "debug".toList⟩

/-- The fields of `od_logger_t` read by the formatter and the writer. -/
structure od_logger_t where
  pid_sz : List Char
  log_debug : Int
  log_stdout : Int
  deriving DecidableEq, Repr

/-- An identifier `od_id_t`: the pointer `id_prefix` and the character array `id`. -/
structure od_id_t where
  ( id_prefix : List Char)
  id : List Char
  deriving DecidableEq, Repr

/-- The fields of `struct tm` used by the format `"%d %b %H:%M:%S."`. -/
structure tm where
  tm_mday : Nat
  tm_mon : Nat
  tm_hour : Nat
  tm_min : Nat
  tm_sec : Nat
  deriving DecidableEq, Repr

/-- What `gettimeofday` and `localtime` hand to the formatter. -/
structure timeval where
  local_tm : tm
  tv_usec : Nat
  deriving DecidableEq, Repr

/-- The ranges `localtime` and `gettimeofday` guarantee. -/
def timeval.valid (tv : timeval) : Prop :=
  1 ≤ tv.local_tm.tm_mday ∧ tv.local_tm.tm_mday ≤ 31 ∧ tv.local_tm.tm_mon < 12 ∧
  tv.local_tm.tm_hour < 24 ∧ tv.local_tm.tm_min < 60 ∧ tv.local_tm.tm_sec ≤ 60 ∧
  tv.tv_usec < 1000000

instance (tv : timeval) : Decidable tv.valid := by
  unfold timeval.valid; infer_instance

/-- The NUL character ending a C string. -/
def NUL : Char := Char.ofNat 0

/-- Decimal digits of a non-negative number, zero padded on the left to `width`
(the conversions `%02d` and `%03d`). -/
def zero_padded (width n : Nat) : List Char :=
  let ds := Nat.toDigits 10 n
  List.replicate (width - ds.length) '0' ++ ds

/-- Abbreviated month names of the C locale (`%b`). -/
def month_abbrev (mon : Nat) : List Char :=
  (["Jan", "Feb", "Mar", "Apr", "May", "Jun",
    "Jul", "Aug", "Sep", "Oct", "Nov", "Dec"].getD mon "?").toList

/-- The expansion of the `strftime` format `"%d %b %H:%M:%S."`. -/
def strftime_text (t : tm) : List Char :=
  zero_padded 2 t.tm_mday ++ [' '] ++ month_abbrev t.tm_mon ++ [' '] ++
  zero_padded 2 t.tm_hour ++ [':'] ++ zero_padded 2 t.tm_min ++ [':'] ++
  zero_padded 2 t.tm_sec ++ ['.']

/-- The conversion `%.*s`: at most `precision` characters, stopping at a NUL. -/
def precision_s (precision : Nat) (s : List Char) : List Char :=
  (s.take precision).takeWhile (fun c => c != NUL)

/-- The value of `sizeof(buf)` in `od_logger_text`. -/
def sizeof_buf : Nat := 512

/-- The value of `sizeof(buf) - buf_len` as the `size_t` passed to the formatting calls:
the subtraction wraps modulo `2 ^ 64`. -/
def remaining (buf_len : Nat) : Nat :=
  (sizeof_buf + 2 ^ 64 - buf_len % 2 ^ 64) % 2 ^ 64

/-- The stack frame of `od_logger_text`: `mem` holds the bytes stored so far starting at
`buf[0]` (offsets from `sizeof_buf` on lie outside the array), `buf_len` is the
accumulator, and `sizes` lists the size argument of every formatting call made. -/
structure text_frame where
  mem : List Char
  buf_len : Nat
  sizes : List Nat
  deriving DecidableEq, Repr

/-- Store `s` at offset `off`, overwriting what was there. -/
def store (mem : List Char) (off : Nat) (s : List Char) : List Char :=
  mem.take off ++ List.replicate (off - mem.length) NUL ++ s ++ mem.drop (off + s.length)

/-- The call `buf_len += snprintf(buf + buf_len, sizeof(buf) - buf_len, ...)` where the
format expands to `s`: at most `size - 1` characters and a NUL are stored, and the
value added to `buf_len` is the length of the whole expansion. A size that has wrapped
is taken as it is, as glibc does. -/
def snprintf_at (f : text_frame) (s : List Char) : text_frame :=
  let size := remaining f.buf_len
  { mem := if size = 0 then f.mem else store f.mem f.buf_len (s.take (size - 1) ++ [NUL])
    buf_len := f.buf_len + s.length
    sizes := f.sizes ++ [size] }

/-- The call `buf_len += strftime(buf + buf_len, sizeof(buf) - buf_len, ...)` where the
format expands to `s`: when `s` and its NUL do not fit, nothing is added. -/
def strftime_at (f : text_frame) (s : List Char) : text_frame :=
  let size := remaining f.buf_len
  if s.length + 1 ≤ size then
    { mem := store f.mem f.buf_len (s ++ [NUL])
      buf_len := f.buf_len + s.length
      sizes := f.sizes ++ [size] }
  else
    { f with sizes := f.sizes ++ [size] }

/-- A call made by `od_logger_write`. The sink receives the bytes
`buf[0 .. buf_len)`. -/
inductive sink_call where
  | od_logfile_write (buf : List Char) (buf_len : Nat)
  | od_logsystem (prio : od_logsystem_prio_t) (buf : List Char) (buf_len : Nat)
  | write (fd : Nat) (buf : List Char) (buf_len : Nat)
  deriving DecidableEq, Repr

/-- The function `od_logger_write`. -/
def od_logger_write (logger : od_logger_t) (ident : od_logger_ident_t)
    (buf : List Char) (buf_len : Nat) : List sink_call :=
  [sink_call.od_logfile_write buf buf_len,
   sink_call.od_logsystem ident.syslog_prio buf buf_len] ++
  (if logger.log_stdout ≠ 0 then [sink_call.write 0 buf buf_len] else [])

/-- The frame of `od_logger_text` when it reaches the call of `od_logger_write`.
`message` is the expansion of `fmt` with `args`. -/
def od_logger_text_frame (logger : od_logger_t) (tv : timeval)
    (event : od_logger_event_t) (id : Option od_id_t)
    (context : Option (List Char)) (message : List Char) : text_frame :=
  /- pid -/
  let f : text_frame := ⟨[], 0, []⟩
  let f := snprintf_at f (logger.pid_sz ++ [' '])
  /- timestamp -/
  let f := strftime_at f (strftime_text tv.local_tm)
  let f := snprintf_at f (zero_padded 3 (tv.tv_usec / 1000) ++ [' ', ' '])
  /- ident -/
  let ident := od_logger_ident_tab event
  let f := match ident.ident_short with
    | some short => snprintf_at f (short ++ [':', ' '])
    | none => f
  /- id -/
  let f := match id with
    | some i => snprintf_at f ( i.id_prefix ++ precision_s i.id.length i.id ++ [':', ' '])
    | none => f
  /- context -/
  let f := match context with
    | some c => snprintf_at f (['('] ++ c ++ [')', ' '])
    | none => f
  /- message -/
  let f := snprintf_at f message
  let f := snprintf_at f ['\n']
  f

/-- The function `od_logger_text`: the sink calls it makes. -/
def od_logger_text (logger : od_logger_t) (tv : timeval)
    (event : od_logger_event_t) (id : Option od_id_t)
    (context : Option (List Char)) (message : List Char) : List sink_call :=
  let f := od_logger_text_frame logger tv event id context message
  od_logger_write logger (od_logger_ident_tab event) f.mem f.buf_len

/-- The function `od_logger_tskv`: it does nothing. -/
def od_logger_tskv (_logger : od_logger_t) (_tv : timeval)
    (_event : od_logger_event_t) (_id : Option od_id_t)
    (_context : Option (List Char)) (_message : List Char) : List sink_call :=
  []

/-- The bytes a sink call hands over. -/
def sink_call.bytes : sink_call → List Char
  | .od_logfile_write buf n => buf.take n
  | .od_logsystem _ buf n => buf.take n
  | .write _ buf n => buf.take n

/-- The byte count a sink call hands over. -/
def sink_call.len : sink_call → Nat
  | .od_logfile_write _ n => n
  | .od_logsystem _ _ n => n
  | .write _ _ n => n


/-! ## `sources/system.c` -/

/-- The value of `EADDRINUSE` in `<errno.h>` (Linux). -/
def EADDRINUSE : Int := 98

/-- The value of `SIGHUP` in `<signal.h>`. -/
def SIGHUP : Int := 1

/-- The value of `SIGINT` in `<signal.h>`. -/
def SIGINT : Int := 2

/-- The value of `SIGTERM` in `<signal.h>`. -/
def SIGTERM : Int := 15

/-- The TLS modes of a listen entry. -/
inductive od_tls_t where
  | OD_TLS_DISABLE
  | OD_TLS_ALLOW
  | OD_TLS_REQUIRE
  | OD_TLS_VERIFY_CA
  | OD_TLS_VERIFY_FULL
  deriving DecidableEq, Repr

/-- The fields of one listen entry `od_configlisten_t` read by `system.c`. -/
structure od_configlisten_t where
  host : String
  port : Int
  backlog : Int
  tls_mode : od_tls_t
  deriving DecidableEq, Repr

/-- The fields of `instance->config` read by `system.c`, the listen list apart. -/
structure od_config_t where
  nodelay : Int
  keepalive : Int
  readahead : Int
  workers : Int
  deriving DecidableEq, Repr

/-- One node of a resolved address chain; `ai_addr` names the socket address. -/
structure addrinfo where
  ai_addr : Nat
  deriving DecidableEq, Repr

/-- The record `od_systemserver_t`. Handles (`machine_io_t *`, `machine_tls_t *`) are
numbers, and `none` is the `NULL` pointer. -/
structure od_systemserver_t where
  io : Option Nat
  tls : Option Nat
  config : od_configlisten_t
  addr : addrinfo
  deriving DecidableEq, Repr

/-- Modelled from the spec: `od_idmgr_generate` (`sources/id.c` is not among the
sources) stores in the identifier the given prefix and a fresh seed issued by the
id-manager. -/
def od_idmgr_generate (seed : List Char) ( id_prefix : List Char) : od_id_t :=
  { id_prefix := id_prefix, id := seed }

/-- The fields of `od_client_t` written by the accept loop. -/
structure od_client_t where
  id : od_id_t
  io : Option Nat
  config_listen : Option od_configlisten_t
  tls : Option Nat
  time_accept : Nat
  deriving DecidableEq, Repr

/-- Message tags: `OD_MCLIENT_NEW` is the only one `system.c` uses. -/
inductive od_msg_t where
  | OD_MCLIENT_NEW
  | other (tag : Nat)
  deriving DecidableEq, Repr

/-- A message: its tag and, as payload, the client the stored pointer refers to. -/
structure machine_msg_t where
  type : od_msg_t
  data : od_client_t
  deriving DecidableEq, Repr

/-- An argument of a log format. -/
inductive fmt_arg where
  | s (v : String)
  | d (v : Int)
  deriving DecidableEq, Repr

/-- The function a coroutine is created with. -/
inductive coroutine_fn where
  | od_system_server (server : od_systemserver_t)
  | od_system_signal_handler
  deriving DecidableEq, Repr

/-- The calls `system.c` makes into the rest of the program, with their arguments. -/
inductive call where
  | od_error (context : String) (fmt : String) (args : List fmt_arg)
  | od_log (context : String) (fmt : String) (args : List fmt_arg)
  | machine_accept (io : Option Nat) (backlog : Int)
  | machine_set_nodelay (io : Nat) (enable : Int)
  | machine_set_keepalive (io : Nat) (enable : Int) (delay : Int)
  | machine_set_readahead (io : Nat) (size : Int)
  | machine_close (io : Nat)
  | machine_io_free (io : Nat)
  | od_client_allocate
  | od_idmgr_generate ( id_prefix : List Char)
  | machine_time
  | machine_msg_create (type : od_msg_t)
  | od_workerpool_feed (msg : machine_msg_t)
  | malloc
  | free
  | od_tls_frontend (config : od_configlisten_t)
  | machine_tls_free (tls : Nat)
  | machine_io_create
  | od_getaddrname (addr : addrinfo)
  | machine_bind (io : Nat) (ai_addr : Nat)
  | machine_coroutine_create (fn : coroutine_fn)
  | machine_getaddrinfo (host : Option String) (port : Int) (passive_hints : Bool)
  | machine_signal_init
  | machine_signal_wait
  | od_router_start
  | od_console_start
  | od_cron_start
  | od_workerpool_start (workers : Int)
  | exit (status : Int)
  deriving DecidableEq, Repr

/-- How a function or coroutine stands after the calls of its trace: waiting in a
blocking call for a result the script no longer provides, returned, or the process
has exited. -/
inductive outcome where
  | blocked
  | returned
  | exited (status : Int)
  deriving DecidableEq, Repr

/-- The calls made, in order, and the outcome reached. -/
structure run where
  trace : List call
  state : outcome
  deriving DecidableEq, Repr

/-- The two ways an iteration of a `for (;;)` loop ends. -/
inductive loop_ctl where
  | continue_
  | break_
  deriving DecidableEq, Repr

/-- What the environment returns during one iteration of the accept loop. -/
structure accept_env where
  accept_rc : Int
  client_io : Nat
  accept_error : String
  errno_ : Int
  readahead_rc : Int
  client_error : String
  client : Option od_client_t
  id_seed : List Char
  time : Nat
  deriving DecidableEq, Repr

/-- The body of the loop of `od_system_server`: the calls of one iteration and whether
the loop goes on. -/
def od_system_server_iter (config : od_config_t) (server : od_systemserver_t)
    (e : accept_env) : List call × loop_ctl :=
  let t := [call.machine_accept server.io server.config.backlog]
  if e.accept_rc = -1 then
    let t := t ++ [call.od_error "server" "accept failed: %s" [fmt_arg.s e.accept_error]]
    if e.errno_ = EADDRINUSE then
      (t, loop_ctl.break_)
    else
      (t, loop_ctl.continue_)
  else
    /- set network options -/
    let t := t ++ [call.machine_set_nodelay e.client_io config.nodelay]
    let t := if config.keepalive > 0 then
        t ++ [call.machine_set_keepalive e.client_io 1 config.keepalive]
      else t
    let t := t ++ [call.machine_set_readahead e.client_io config.readahead]
    if e.readahead_rc = -1 then
      (t ++ [call.od_error "server" "failed to set client readahead: %s"
               [fmt_arg.s e.client_error],
             call.machine_close e.client_io,
             call.machine_io_free e.client_io], loop_ctl.continue_)
    else
      /- allocate new client -/
      let t := t ++ [call.od_client_allocate]
      match e.client with
      | none =>
        (t ++ [call.od_error "server" "failed to allocate client object" [],
               call.machine_close e.client_io,
               call.machine_io_free e.client_io], loop_ctl.continue_)
      | some client =>
        let client := { client with
          id := od_idmgr_generate e.id_seed ['c']
          io := some e.client_io
          config_listen := some server.config
          tls := server.tls
          time_accept := e.time }
        /- create new client event and pass it to worker pool -/
        let msg : machine_msg_t := { type := od_msg_t.OD_MCLIENT_NEW, data := client }
        (t ++ [call.od_idmgr_generate ['c'],
               call.machine_time,
               call.machine_msg_create od_msg_t.OD_MCLIENT_NEW,
               call.od_workerpool_feed msg], loop_ctl.continue_)

/-- The function `od_system_server`, run against the accept outcomes of `script`: the
loop ends on `break`; when the script is used up the coroutine is waiting in
`machine_accept`. -/
def od_system_server (config : od_config_t) (server : od_systemserver_t) :
    List accept_env → run
  | [] => ⟨[], outcome.blocked⟩
  | e :: script =>
    match od_system_server_iter config server e with
    | (t, loop_ctl.break_) => ⟨t, outcome.returned⟩
    | (t, loop_ctl.continue_) =>
      let r := od_system_server config server script
      ⟨t ++ r.trace, r.state⟩

/-- What the environment returns during one call of `od_system_server_start`:
`server` is the block `malloc` returns (with whatever it contains) or `NULL`. -/
structure server_start_env where
  server : Option od_systemserver_t
  tls : Option Nat
  io : Option Nat
  addr_name : String
  bind_rc : Int
  bind_error : String
  coroutine_id : Int
  deriving DecidableEq, Repr

/-- The calls `if (server->tls) machine_tls_free(server->tls)`. -/
def tls_free_if_set (server : od_systemserver_t) : List call :=
  match server.tls with
  | some tls => [call.machine_tls_free tls]
  | none => []

/-- The function `od_system_server_start`, from the creation of the server io on. -/
def od_system_server_start_io (server : od_systemserver_t)
    (env : server_start_env) (t : List call) : Int × List call :=
  /- create server io -/
  let server := { server with io := env.io }
  let t := t ++ [call.machine_io_create]
  match server.io with
  | none =>
    (-1, t ++ [call.od_error "server" "failed to create system io" []] ++
      tls_free_if_set server ++ [call.free])
  | some io =>
    let t := t ++ [call.od_getaddrname server.addr]
    /- bind to listen address and port -/
    let t := t ++ [call.machine_bind io server.addr.ai_addr]
    if env.bind_rc = -1 then
      (-1, t ++ [call.od_error "server" "bind to %s failed: %s"
                   [fmt_arg.s env.addr_name, fmt_arg.s env.bind_error]] ++
        tls_free_if_set server ++
        [call.machine_close io, call.machine_io_free io, call.free])
    else
      let t := t ++ [call.od_log "server" "listening on %s" [fmt_arg.s env.addr_name]]
      let t := t ++ [call.machine_coroutine_create (coroutine_fn.od_system_server server)]
      if env.coroutine_id = -1 then
        (-1, t ++ [call.od_error "system" "failed to start server coroutine" []] ++
          tls_free_if_set server ++
          [call.machine_close io, call.machine_io_free io, call.free])
      else
        (0, t)

/-- The function `od_system_server_start`: its result and the calls it makes. -/
def od_system_server_start (config : od_configlisten_t) (addr : addrinfo)
    (env : server_start_env) : Int × List call :=
  let t := [call.malloc]
  match env.server with
  | none =>
    (-1, t ++ [call.od_error "system" "failed to allocate system server object" []])
  | some server =>
    let server := { server with config := config, addr := addr }
    /- create server tls -/
    if server.config.tls_mode ≠ od_tls_t.OD_TLS_DISABLE then
      let server := { server with tls := env.tls }
      let t := t ++ [call.od_tls_frontend server.config]
      match server.tls with
      | none =>
        (-1, t ++ [call.od_error "server" "failed to create tls handler" [], call.free])
      | some _ => od_system_server_start_io server env t
    else
      od_system_server_start_io server env t

/-- One entry of `instance->config.listen` together with what the environment returns
while it is processed: the result of `machine_getaddrinfo` and, for every node of the
resolved chain, the outcomes of a start attempted on it. -/
structure listen_env where
  listen : od_configlisten_t
  rc : Int
  ai : List (addrinfo × server_start_env)
  deriving DecidableEq, Repr

/-- The loop `while (ai)` of `od_system_listen`. -/
def od_system_listen_chain (listen : od_configlisten_t) :
    List (addrinfo × server_start_env) → Int → Int × List call
  | [], binded => (binded, [])
  | (ai, env) :: ai_next, binded =>
    let r := od_system_server_start listen ai env
    let binded := if r.1 = 0 then binded + 1 else binded
    let rest := od_system_listen_chain listen ai_next binded
    (rest.1, r.2 ++ rest.2)

/-- The loop of `od_system_listen` over the listen entries, `binded` being the counter.
A successful resolution yields a non-empty chain; the result is `none` where the
source would hand the `NULL` chain of a named host to `od_system_server_start`. -/
def od_system_listen_from : List listen_env → Int → Option (Int × List call)
  | [], binded => some (binded, [])
  | e :: entries, binded =>
    /- listen '*' -/
    let host : Option String := if e.listen.host = "*" then none else some e.listen.host
    let passive_hints : Bool := decide (e.listen.host = "*")
    /- resolve listen address and port -/
    let t := [call.machine_getaddrinfo host e.listen.port passive_hints]
    if e.rc ≠ 0 then
      let t := t ++ [call.od_error "system" "failed to resolve %s:%d"
                       [fmt_arg.s e.listen.host, fmt_arg.d e.listen.port]]
      (od_system_listen_from entries binded).map (fun r => (r.1, t ++ r.2))
    else
      /- listen resolved addresses -/
      match host with
      | some _ =>
        match e.ai with
        | [] => none
        | (ai, env) :: _ =>
          let r := od_system_server_start e.listen ai env
          let binded := if r.1 = 0 then binded + 1 else binded
          (od_system_listen_from entries binded).map (fun rest => (rest.1, t ++ r.2 ++ rest.2))
      | none =>
        let r := od_system_listen_chain e.listen e.ai binded
        (od_system_listen_from entries r.1).map (fun rest => (rest.1, t ++ r.2 ++ rest.2))

/-- The function `od_system_listen`: the number of addresses bound and the calls made. -/
def od_system_listen (entries : List listen_env) : Option (Int × List call) :=
  od_system_listen_from entries 0

/-- The loop of `od_system_signal_handler`, run against the successive results of
`machine_signal_wait`. -/
def od_system_signal_loop : List Int → run
  | [] => ⟨[], outcome.blocked⟩
  | rc :: waits =>
    if rc = -1 then
      ⟨[call.machine_signal_wait], outcome.returned⟩
    else if rc = SIGTERM then
      ⟨[call.machine_signal_wait,
        call.od_log "system" "SIGTERM received, shutting down" [],
        call.exit 0], outcome.exited 0⟩
    else if rc = SIGINT then
      ⟨[call.machine_signal_wait,
        call.od_log "system" "SIGINT received, shutting down" [],
        call.exit 0], outcome.exited 0⟩
    else if rc = SIGHUP then
      let r := od_system_signal_loop waits
      ⟨[call.machine_signal_wait,
        call.od_log "system" "SIGHUP received, skipping" []] ++ r.trace, r.state⟩
    else
      let r := od_system_signal_loop waits
      ⟨[call.machine_signal_wait] ++ r.trace, r.state⟩

/-- The function `od_system_signal_handler`: `init_rc` is the result of
`machine_signal_init`. -/
def od_system_signal_handler (init_rc : Int) (waits : List Int) : run :=
  if init_rc = -1 then
    ⟨[call.machine_signal_init,
      call.od_error "system" "failed to init signal handler" []], outcome.returned⟩
  else
    let r := od_system_signal_loop waits
    ⟨[call.machine_signal_init] ++ r.trace, r.state⟩

/-- What the environment returns during `od_system`. -/
structure system_env where
  router_rc : Int
  console_rc : Int
  cron_rc : Int
  workerpool_rc : Int
  coroutine_id : Int
  listen : List listen_env
  deriving DecidableEq, Repr

/-- The function `od_system`. -/
def od_system (config : od_config_t) (env : system_env) : Option run :=
  /- start router coroutine -/
  let t := [call.od_router_start]
  if env.router_rc = -1 then some ⟨t, outcome.returned⟩ else
  /- start console coroutine -/
  let t := t ++ [call.od_console_start]
  if env.console_rc = -1 then some ⟨t, outcome.returned⟩ else
  /- start cron coroutine -/
  let t := t ++ [call.od_cron_start]
  if env.cron_rc = -1 then some ⟨t, outcome.returned⟩ else
  /- start worker threads -/
  let t := t ++ [call.od_workerpool_start config.workers]
  if env.workerpool_rc = -1 then some ⟨t, outcome.returned⟩ else
  /- start signal handler coroutine -/
  let t := t ++ [call.machine_coroutine_create coroutine_fn.od_system_signal_handler]
  if env.coroutine_id = -1 then
    some ⟨t ++ [call.od_error "system" "failed to start signal handler" []], outcome.returned⟩
  else
  /- start listen servers -/
  match od_system_listen env.listen with
  | none => none
  | some (rc, listen_trace) =>
    let t := t ++ listen_trace
    if rc = 0 then
      some ⟨t ++ [call.od_error "system" "failed to bind any listen address" [],
                  call.exit 1], outcome.exited 1⟩
    else
      some ⟨t, outcome.returned⟩

/-! ### The line layout of the specification -/

/-- The short tag of the layout: `error: ` for the error kinds, `debug: ` for the debug
kinds, nothing for the informational kinds. -/
def short_tag : od_logger_event_t → List Char
  | .OD_LOG_ERROR | .OD_LOG_CLIENT_ERROR | .OD_LOG_SERVER_ERROR => "error: ".toList
  | .OD_LOG_CLIENT_DEBUG | .OD_LOG_SERVER_DEBUG => "debug: ".toList
  | .OD_LOG | .OD_LOG_CLIENT | .OD_LOG_SERVER => []

/-- The timestamp of the layout, `DD Mon HH:MM:SS.mmm`. -/
def timestamp (tv : timeval) : List Char :=
  zero_padded 2 tv.local_tm.tm_mday ++ [' '] ++ month_abbrev tv.local_tm.tm_mon ++ [' '] ++
  zero_padded 2 tv.local_tm.tm_hour ++ [':'] ++ zero_padded 2 tv.local_tm.tm_min ++ [':'] ++
  zero_padded 2 tv.local_tm.tm_sec ++ ['.'] ++ zero_padded 3 (tv.tv_usec / 1000)

/-- The identifier group of the layout: present exactly when an id is supplied. -/
def id_group : Option od_id_t → List Char
  | some i => i.id_prefix ++ i.id.takeWhile (fun c => c != NUL) ++ [':', ' ']
  | none => []

/-- The context group the formatter produces: present exactly when a context is
supplied, whatever its length. -/
def context_group : Option (List Char) → List Char
  | some c => ['('] ++ c ++ [')', ' ']
  | none => []

/-- Everything of the line that precedes the context group. -/
def text_head (logger : od_logger_t) (tv : timeval) (event : od_logger_event_t)
    (id : Option od_id_t) : List Char :=
  logger.pid_sz ++ [' '] ++ timestamp tv ++ [' ', ' '] ++ short_tag event ++ id_group id

/-- The whole line of the layout. -/
def text_line (logger : od_logger_t) (tv : timeval) (event : od_logger_event_t)
    (id : Option od_id_t) (context : Option (List Char)) (message : List Char) : List Char :=
  text_head logger tv event id ++ context_group context ++ message ++ ['\n']

/-! ### Vocabulary of the claims about `system.c` -/

/-- The messages handed to the worker pool in a trace. -/
def fed (t : List call) : List machine_msg_t :=
  t.filterMap (fun c => match c with
    | call.od_workerpool_feed msg => some msg
    | _ => none)

/-- The iterations the accept loop performs on a script of accept outcomes: all of them
up to and including the first one whose accept fails with `EADDRINUSE`. -/
def iterations : List accept_env → List accept_env
  | [] => []
  | e :: script =>
    if e.accept_rc = -1 ∧ e.errno_ = EADDRINUSE then [e] else e :: iterations script

/-- An iteration is fully successful when accept, set-readahead and the client
allocation all succeed. -/
def fully_successful (e : accept_env) : Bool :=
  decide (e.accept_rc ≠ -1) && decide (e.readahead_rc ≠ -1) && e.client.isSome

/-- The `NEW_CLIENT` message of the specification for a fully successful iteration:
the allocated client with an id generated with prefix `c`, the accepted socket, the
listen config and TLS context of the listener and the accept time. -/
def new_client_msg (server : od_systemserver_t) (e : accept_env) : Option machine_msg_t :=
  if fully_successful e then
    e.client.map (fun client =>
      { type := od_msg_t.OD_MCLIENT_NEW
        data := { client with
          id := od_idmgr_generate e.id_seed ['c']
          io := some e.client_io
          config_listen := some server.config
          tls := server.tls
          time_accept := e.time } })
  else none

/-- The starts the specification prescribes for one listen entry, each with its result
and its calls: none when the resolution fails, one on every resolved address when the
host is `*`, one on the first resolved address for any other host. -/
def start_attempts (e : listen_env) : List (Int × List call) :=
  if e.rc ≠ 0 then []
  else if e.listen.host = "*" then
    e.ai.map (fun a => od_system_server_start e.listen a.1 a.2)
  else
    (e.ai.take 1).map (fun a => od_system_server_start e.listen a.1 a.2)

/-- The calls the specification prescribes for one listen entry: the resolution, the
error log when it fails, and the calls of the prescribed starts. -/
def listen_entry_calls (e : listen_env) : List call :=
  [call.machine_getaddrinfo (if e.listen.host = "*" then none else some e.listen.host)
     e.listen.port (decide (e.listen.host = "*"))] ++
  (if e.rc ≠ 0 then
    [call.od_error "system" "failed to resolve %s:%d"
       [fmt_arg.s e.listen.host, fmt_arg.d e.listen.port]]
   else []) ++
  ((start_attempts e).map (fun r => r.2)).flatten

/-- The number of starts in a list that returned 0. -/
def count_started (rs : List (Int × List call)) : Int :=
  ((rs.filter (fun r => decide (r.1 = 0))).length : Int)

/-- A resolution that succeeds for a named host yields at least one address. -/
def well_resolved (entries : List listen_env) : Prop :=
  ∀ e ∈ entries, e.rc = 0 → e.listen.host ≠ "*" → e.ai ≠ []

instance (entries : List listen_env) : Decidable (well_resolved entries) := by
  unfold well_resolved; infer_instance

/-- The five start-up calls `od_system` makes before the listeners, in their order:
router, console, cron, worker pool with the configured worker count, signal-handler
coroutine. -/
def startup_calls (config : od_config_t) : List call :=
  [call.od_router_start, call.od_console_start, call.od_cron_start,
   call.od_workerpool_start config.workers,
   call.machine_coroutine_create coroutine_fn.od_system_signal_handler]

/-- The results of the five start-up calls, in the same order. -/
def startup_results (env : system_env) : List Int :=
  [env.router_rc, env.console_rc, env.cron_rc, env.workerpool_rc, env.coroutine_id]

/-- The number of start-up calls that succeed before the first that returns -1. -/
def steps_succeeded (env : system_env) : Nat :=
  ((startup_results env).takeWhile (fun rc => decide (rc ≠ -1))).length

/-- The error logged when no listen address is bound. -/
def bind_failure_log : call :=
  call.od_error "system" "failed to bind any listen address" []

/-- Whether a call is `exit`. -/
def is_exit : call → Bool
  | call.exit _ => true
  | _ => false

/-- A call that is neither the bind-failure log nor `exit`. -/
def not_fatal (c : call) : Prop :=
  c ≠ bind_failure_log ∧ is_exit c = false

/-- The calls of `n` rounds of the signal loop in which `SIGHUP` is received. -/
def sighup_rounds (n : Nat) : List call :=
  (List.replicate n
    [call.machine_signal_wait, call.od_log "system" "SIGHUP received, skipping" []]).flatten

/-! ### Concrete inputs used to exercise the statements -/

/-- A tuning configuration: nodelay on, keepalive 7200 s, readahead 8192, 2 workers. -/
def sample_config : od_config_t :=
  { nodelay := 1, keepalive := 7200, readahead := 8192, workers := 2 }

/-- A listen entry for 127.0.0.1:6432 without TLS. -/
def sample_listen : od_configlisten_t :=
  { host := "127.0.0.1", port := 6432, backlog := 128, tls_mode := od_tls_t.OD_TLS_DISABLE }

/-- A listener on `sample_listen` with io handle 3 and no TLS context. -/
def sample_server : od_systemserver_t :=
  { io := some 3, tls := none, config := sample_listen, addr := ⟨1⟩ }

/-- A freshly allocated client. -/
def blank_client : od_client_t :=
  { id := ⟨[], []⟩, io := none, config_listen := none, tls := none, time_accept := 0 }

/-- An iteration in which accept, set-readahead and the allocation succeed. -/
def accept_ok (client_io : Nat) : accept_env :=
  { accept_rc := 0, client_io := client_io, accept_error := "", errno_ := 0,
    readahead_rc := 0, client_error := "", client := some blank_client,
    id_seed := "a1b2c3".toList, time := 1000 }

/-- An iteration in which accept fails with the given errno. -/
def accept_failed (errno_ : Int) : accept_env :=
  { accept_ok 0 with accept_rc := -1, accept_error := "failure", errno_ := errno_ }

/-- An iteration in which set-readahead fails on the accepted socket. -/
def readahead_failed (client_io : Nat) : accept_env :=
  { accept_ok client_io with readahead_rc := -1, client_error := "failure" }

/-- A start in which every step succeeds. -/
def start_ok : server_start_env :=
  { server := some ⟨none, none, sample_listen, ⟨0⟩⟩, tls := none, io := some 5,
    addr_name := "127.0.0.1:6432", bind_rc := 0, bind_error := "", coroutine_id := 1 }

/-- A start in which bind fails. -/
def bind_failed : server_start_env :=
  { start_ok with bind_rc := -1, bind_error := "address already in use" }

/-- Three listen entries: a host that does not resolve, `*` resolving to two addresses
of which the first cannot be bound, and a named host resolving to two addresses. -/
def sample_entries : List listen_env :=
  [{ listen := { sample_listen with host := "nowhere.invalid" }, rc := -2, ai := [] },
   { listen := { sample_listen with host := "*" }, rc := 0,
     ai := [(⟨1⟩, bind_failed), (⟨2⟩, start_ok)] },
   { listen := sample_listen, rc := 0, ai := [(⟨3⟩, start_ok), (⟨4⟩, start_ok)] }]

/-- An environment in which every start-up call succeeds, with the given listen list. -/
def system_ok (listen : List listen_env) : system_env :=
  { router_rc := 0, console_rc := 0, cron_rc := 0, workerpool_rc := 0, coroutine_id := 1,
    listen := listen }

/-- The frame holds exactly `pre`, possibly followed by the NUL of the last store. -/
def frame_holds (f : text_frame) (pre : List Char) : Prop :=
  f.buf_len = pre.length ∧ ∃ tail : List Char, f.mem = pre ++ tail ∧ tail.length ≤ 1

/-! ## Properties of the logger -/

theorem remaining_of_le {n : Nat} (h : n ≤ sizeof_buf) : remaining n = sizeof_buf - n := by
  unfold remaining sizeof_buf at *
  omega

theorem store_at_end (pre tail s : List Char) (ht : tail.length ≤ 1) :
    store (pre ++ tail) pre.length (s ++ [NUL]) = pre ++ s ++ [NUL] := by
  unfold store
  have h1 : (pre ++ tail).take pre.length = pre := by simp
  have h2 : pre.length - (pre ++ tail).length = 0 := by simp
  have h3 : (pre ++ tail).drop (pre.length + (s ++ [NUL]).length) = [] := by
    apply List.drop_eq_nil_of_le
    simp
    omega
  rw [h1, h2, h3]
  simp

theorem snprintf_at_holds {f : text_frame} {pre : List Char} (s : List Char)
    (h : frame_holds f pre) (hfit : pre.length + s.length < sizeof_buf) :
    frame_holds (snprintf_at f s) (pre ++ s) := by
  obtain ⟨hl, tail, hm, ht⟩ := h
  have hr : remaining pre.length = sizeof_buf - pre.length :=
    remaining_of_le (by omega)
  have hne : ¬ (sizeof_buf - pre.length = 0) := by omega
  have htake : s.take (sizeof_buf - pre.length - 1) = s :=
    List.take_of_length_le (by omega)
  refine ⟨by simp [snprintf_at, hl], [NUL], ?_, by simp⟩
  simp only [snprintf_at, hl, hr, hne, if_false, htake, hm]
  exact store_at_end pre tail s ht

theorem strftime_at_holds {f : text_frame} {pre : List Char} (s : List Char)
    (h : frame_holds f pre) (hfit : pre.length + s.length < sizeof_buf) :
    frame_holds (strftime_at f s) (pre ++ s) := by
  obtain ⟨hl, tail, hm, ht⟩ := h
  have hr : remaining pre.length = sizeof_buf - pre.length :=
    remaining_of_le (by omega)
  have hle : s.length + 1 ≤ sizeof_buf - pre.length := by omega
  refine ⟨by simp [strftime_at, hl, hr, hle], [NUL], ?_, by simp⟩
  simp only [strftime_at, hl, hr, hle, if_true, hm]
  exact store_at_end pre tail s ht

theorem frame_holds_take {f : text_frame} {pre : List Char} (h : frame_holds f pre) :
    f.mem.take f.buf_len = pre := by
  obtain ⟨hl, tail, hm, _⟩ := h
  rw [hl, hm]; simp


theorem short_tag_eq (event : od_logger_event_t) :
    short_tag event =
      match (od_logger_ident_tab event).ident_short with
      | some short => short ++ [':', ' ']
      | none => [] := by
  cases event <;> rfl

theorem precision_s_sizeof (s : List Char) :
    precision_s s.length s = s.takeWhile (fun c => c != NUL) := by
  simp [precision_s]

theorem snprintf_opt_holds {α : Type} (o : Option α) (g : α → List Char)
    {f : text_frame} {pre : List Char} (h : frame_holds f pre)
    (hfit : pre.length + (o.elim [] g).length < sizeof_buf) :
    frame_holds (o.elim f (fun a => snprintf_at f (g a))) (pre ++ o.elim [] g) := by
  cases o with
  | none => simpa using h
  | some a => exact snprintf_at_holds (g a) h hfit

/-- When the line of the layout and its NUL fit the buffer, the frame holds that line
when `od_logger_write` is called. -/
theorem od_logger_text_frame_holds (logger : od_logger_t) (tv : timeval)
    (event : od_logger_event_t) (id : Option od_id_t)
    (context : Option (List Char)) (message : List Char)
    (hfit : (text_line logger tv event id context message).length < sizeof_buf) :
    frame_holds (od_logger_text_frame logger tv event id context message)
      (text_line logger tv event id context message) := by
  have h0 : frame_holds ⟨[], 0, []⟩ [] := ⟨rfl, [], rfl, by simp⟩
  have hts : timestamp tv =
      strftime_text tv.local_tm ++ zero_padded 3 (tv.tv_usec / 1000) := by
    simp [timestamp, strftime_text]
  have hline : text_line logger tv event id context message =
      [] ++ (logger.pid_sz ++ [' ']) ++ strftime_text tv.local_tm ++
        (zero_padded 3 (tv.tv_usec / 1000) ++ [' ', ' ']) ++
        (od_logger_ident_tab event).ident_short.elim [] (fun short => short ++ [':', ' ']) ++
        id.elim [] (fun i => i.id_prefix ++ precision_s i.id.length i.id ++ [':', ' ']) ++
        context.elim [] (fun c => ['('] ++ c ++ [')', ' ']) ++ message ++ ['\n'] := by
    simp only [text_line, text_head, hts, short_tag_eq]
    cases (od_logger_ident_tab event).ident_short <;> cases id <;> cases context <;>
      simp [id_group, context_group, precision_s_sizeof]
  rw [hline] at hfit ⊢
  simp only [List.length_append] at hfit
  have h1 := snprintf_at_holds (logger.pid_sz ++ [' ']) h0
    (by simp only [List.length_append]; omega)
  have h2 := strftime_at_holds (strftime_text tv.local_tm) h1
    (by simp only [List.length_append]; omega)
  have h3 := snprintf_at_holds (zero_padded 3 (tv.tv_usec / 1000) ++ [' ', ' ']) h2
    (by simp only [List.length_append]; omega)
  have h4 := snprintf_opt_holds (od_logger_ident_tab event).ident_short
    (fun short => short ++ [':', ' ']) h3
    (by simp only [List.length_append]; omega)
  have h5 := snprintf_opt_holds id
    (fun i => i.id_prefix ++ precision_s i.id.length i.id ++ [':', ' ']) h4
    (by simp only [List.length_append]; omega)
  have h6 := snprintf_opt_holds context (fun c => ['('] ++ c ++ [')', ' ']) h5
    (by simp only [List.length_append]; omega)
  have h7 := snprintf_at_holds message h6
    (by simp only [List.length_append]; omega)
  have h8 := snprintf_at_holds ['\n'] h7
    (by simp only [List.length_append]; omega)
  convert h8 using 1
  unfold od_logger_text_frame
  dsimp only
  cases (od_logger_ident_tab event).ident_short <;> cases id <;> cases context <;> rfl

theorem zero_padded_length (width n : Nat) (hw : 0 < width) (h : n < 10 ^ width) :
    (zero_padded width n).length = width := by
  have hd : (Nat.toDigits 10 n).length ≤ width :=
    Nat.toDigitsCore_length 10 (by norm_num) (n + 1) n width h hw
  simp only [zero_padded, List.length_append, List.length_replicate]
  omega

theorem month_abbrev_length (mon : Nat) (h : mon < 12) : (month_abbrev mon).length = 3 := by
  interval_cases mon <;> rfl

theorem od_logger_text_bytes (logger : od_logger_t) (tv : timeval)
    (event : od_logger_event_t) (id : Option od_id_t)
    (context : Option (List Char)) (message : List Char)
    (hfit : (text_line logger tv event id context message).length < sizeof_buf) :
    ∀ c ∈ od_logger_text logger tv event id context message,
      c.bytes = text_line logger tv event id context message ∧
      c.len = (text_line logger tv event id context message).length := by
  have h := od_logger_text_frame_holds logger tv event id context message hfit
  have ht := frame_holds_take h
  have hl := h.1
  intro c hc
  simp only [od_logger_text, od_logger_write, List.mem_append, List.mem_cons,
    List.mem_singleton, List.not_mem_nil, or_false] at hc
  rcases hc with (rfl | rfl) | hc
  · exact ⟨ht, hl⟩
  · exact ⟨ht, hl⟩
  · split at hc
    · simp only [List.mem_singleton] at hc
      subst hc
      exact ⟨ht, hl⟩
    · simp at hc

theorem od_logger_text_ne_nil (logger : od_logger_t) (tv : timeval)
    (event : od_logger_event_t) (id : Option od_id_t)
    (context : Option (List Char)) (message : List Char) :
    od_logger_text logger tv event id context message ≠ [] := by
  simp [od_logger_text, od_logger_write]

/-! ## The claims about the logger -/

set_option maxRecDepth 100000 in
/-- C7 (evaluated at a failing input). For pid `1`, an informational event without id or
context and a message of 600 characters, the byte count handed to `od_logger_write` is
624, above the 512 bytes of the buffer, and the final formatting call is made at offset
623 with the wrapped size `2 ^ 64 - 111`: the difference `sizeof(buf) - buf_len` is
negative there. -/
theorem od_logger_text_long_message_overruns :
    (od_logger_text_frame ⟨['1'], 0, 0⟩ ⟨⟨1, 0, 0, 0, 0⟩, 0⟩ od_logger_event_t.OD_LOG
        none none (List.replicate 600 'x')).buf_len = 624 ∧
    sizeof_buf < (od_logger_text_frame ⟨['1'], 0, 0⟩ ⟨⟨1, 0, 0, 0, 0⟩, 0⟩
        od_logger_event_t.OD_LOG none none (List.replicate 600 'x')).buf_len ∧
    (od_logger_text_frame ⟨['1'], 0, 0⟩ ⟨⟨1, 0, 0, 0, 0⟩, 0⟩ od_logger_event_t.OD_LOG
        none none (List.replicate 600 'x')).sizes = [512, 510, 494, 489, 2 ^ 64 - 111] ∧
    (od_logger_text ⟨['1'], 0, 0⟩ ⟨⟨1, 0, 0, 0, 0⟩, 0⟩ od_logger_event_t.OD_LOG
        none none (List.replicate 600 'x')).map sink_call.len = [624, 624] := by
  decide

/-- C8. When the line of the layout fits the buffer (with its terminating NUL), every
sink receives exactly: the pid, one space, the timestamp `DD Mon HH:MM:SS.mmm` (two-digit
day, hour, minute and second, three-letter month, three-digit milliseconds), two spaces,
the short tag `error: ` or `debug: ` for the error and debug kinds and nothing for the
informational kinds, the group `<id-prefix><id>: ` exactly when an id is supplied, the
context group, the message and one newline. -/
theorem od_logger_text_emits_layout (logger : od_logger_t) (tv : timeval)
    (event : od_logger_event_t) (id : Option od_id_t)
    (context : Option (List Char)) (message : List Char)
    (hv : tv.valid)
    (hfit : (text_line logger tv event id context message).length < sizeof_buf) :
    od_logger_text logger tv event id context message ≠ [] ∧
    (∀ c ∈ od_logger_text logger tv event id context message,
      c.bytes =
        logger.pid_sz ++ [' '] ++
        (zero_padded 2 tv.local_tm.tm_mday ++ [' '] ++ month_abbrev tv.local_tm.tm_mon ++
          [' '] ++ zero_padded 2 tv.local_tm.tm_hour ++ [':'] ++
          zero_padded 2 tv.local_tm.tm_min ++ [':'] ++ zero_padded 2 tv.local_tm.tm_sec ++
          ['.'] ++ zero_padded 3 (tv.tv_usec / 1000)) ++
        [' ', ' '] ++ short_tag event ++ id_group id ++ context_group context ++
        message ++ ['\n'] ∧
      c.len = c.bytes.length) ∧
    (zero_padded 2 tv.local_tm.tm_mday).length = 2 ∧
    (month_abbrev tv.local_tm.tm_mon).length = 3 ∧
    (zero_padded 2 tv.local_tm.tm_hour).length = 2 ∧
    (zero_padded 2 tv.local_tm.tm_min).length = 2 ∧
    (zero_padded 2 tv.local_tm.tm_sec).length = 2 ∧
    (zero_padded 3 (tv.tv_usec / 1000)).length = 3 := by
  obtain ⟨_, h31, hmon, hhour, hmin, hsec, husec⟩ := hv
  refine ⟨od_logger_text_ne_nil _ _ _ _ _ _, ?_,
    zero_padded_length _ _ (by norm_num) (by omega),
    month_abbrev_length _ hmon,
    zero_padded_length _ _ (by norm_num) (by omega),
    zero_padded_length _ _ (by norm_num) (by omega),
    zero_padded_length _ _ (by norm_num) (by omega),
    zero_padded_length _ _ (by norm_num) (by omega)⟩
  intro c hc
  obtain ⟨hb, hl⟩ := od_logger_text_bytes logger tv event id context message hfit c hc
  rw [hl, hb]
  exact ⟨rfl, rfl⟩

theorem od_logger_text_emits_layout_witness :
    (⟨⟨5, 0, 9, 3, 7⟩, 42000⟩ : timeval).valid ∧
    (text_line ⟨"4242".toList, 0, 1⟩ ⟨⟨5, 0, 9, 3, 7⟩, 42000⟩
        od_logger_event_t.OD_LOG_CLIENT_ERROR (some ⟨['c'], "a1b2c3".toList⟩)
        (some "startup".toList) "bad packet".toList).length < sizeof_buf ∧
    (od_logger_text ⟨"4242".toList, 0, 1⟩ ⟨⟨5, 0, 9, 3, 7⟩, 42000⟩
        od_logger_event_t.OD_LOG_CLIENT_ERROR (some ⟨['c'], "a1b2c3".toList⟩)
        (some "startup".toList) "bad packet".toList).map sink_call.bytes =
      List.replicate 3
        "4242 05 Jan 09:03:07.042  error: ca1b2c3: (startup) bad packet\n".toList := by
  refine ⟨by decide, by decide, ?_⟩
  have h := od_logger_text_emits_layout ⟨"4242".toList, 0, 1⟩ ⟨⟨5, 0, 9, 3, 7⟩, 42000⟩
    od_logger_event_t.OD_LOG_CLIENT_ERROR (some ⟨['c'], "a1b2c3".toList⟩)
    (some "startup".toList) "bad packet".toList (by decide) (by decide)
  refine List.eq_replicate_iff.2 ⟨by decide, fun b hb => ?_⟩
  obtain ⟨c, hc, rfl⟩ := List.mem_map.1 hb
  rw [(h.2.1 c hc).1]
  decide

/-- C9 (counterexample). With the empty string supplied as context, the line handed to
the sinks carries the group `() ` between the timestamp and the message. -/
theorem od_logger_text_empty_context_emits_group :
    (od_logger_text ⟨['1'], 0, 0⟩ ⟨⟨1, 0, 0, 0, 0⟩, 0⟩ od_logger_event_t.OD_LOG
        none (some []) "started".toList).map sink_call.bytes =
      ["1 01 Jan 00:00:00.000  () started\n".toList,
       "1 01 Jan 00:00:00.000  () started\n".toList] ∧
    ['(', ')', ' '] <:+: "1 01 Jan 00:00:00.000  () started\n".toList := by
  decide

/-- C9 (amended). For every event whose formatted line fits the 512-byte buffer together
with its terminating NUL, every sink receives the part of the line that precedes the
context, then the group `(<context>) ` if and only if a context is supplied (the pointer
is not `NULL`), then the message and the newline: with no context the message follows
the id group directly, and with the empty string as context the line carries the group
`() `. -/
theorem od_logger_text_context_group (logger : od_logger_t) (tv : timeval)
    (event : od_logger_event_t) (id : Option od_id_t)
    (context : Option (List Char)) (message : List Char)
    (hfit : (text_line logger tv event id context message).length < sizeof_buf) :
    od_logger_text logger tv event id context message ≠ [] ∧
    ∀ c ∈ od_logger_text logger tv event id context message,
      c.bytes =
        text_head logger tv event id ++
        (match context with
          | some ctx => ['('] ++ ctx ++ [')', ' ']
          | none => []) ++
        message ++ ['\n'] ∧
      (c.bytes = text_head logger tv event id ++ message ++ ['\n'] ↔ context = none) ∧
      (context = some [] →
        c.bytes = text_head logger tv event id ++ ['(', ')', ' '] ++ message ++ ['\n']) := by
  refine ⟨od_logger_text_ne_nil _ _ _ _ _ _, fun c hc => ?_⟩
  have hb := (od_logger_text_bytes logger tv event id context message hfit c hc).1
  rw [hb]
  cases context with
  | none =>
    refine ⟨rfl, ⟨fun _ => rfl, fun _ => ?_⟩, fun h => absurd h (by simp)⟩
    simp [text_line, context_group]
  | some ctx =>
    refine ⟨rfl, ⟨fun h => ?_, fun h => absurd h (by simp)⟩, fun h => ?_⟩
    · have hlen := congrArg List.length h
      simp only [text_line, context_group, List.length_append, List.length_cons,
        List.length_nil] at hlen
      omega
    · obtain rfl : ctx = [] := by simpa using h
      simp [text_line, context_group]

theorem od_logger_text_context_group_witness :
    (text_line ⟨['1'], 0, 0⟩ ⟨⟨1, 0, 0, 0, 0⟩, 0⟩ od_logger_event_t.OD_LOG
        none none "started".toList).length < sizeof_buf ∧
    (od_logger_text ⟨['1'], 0, 0⟩ ⟨⟨1, 0, 0, 0, 0⟩, 0⟩ od_logger_event_t.OD_LOG
        none none "started".toList).map sink_call.bytes =
      List.replicate 2 "1 01 Jan 00:00:00.000  started\n".toList ∧
    (text_line ⟨['1'], 0, 0⟩ ⟨⟨1, 0, 0, 0, 0⟩, 0⟩ od_logger_event_t.OD_LOG
        none (some "server".toList) "started".toList).length < sizeof_buf ∧
    (od_logger_text ⟨['1'], 0, 0⟩ ⟨⟨1, 0, 0, 0, 0⟩, 0⟩ od_logger_event_t.OD_LOG
        none (some "server".toList) "started".toList).map sink_call.bytes =
      List.replicate 2 "1 01 Jan 00:00:00.000  (server) started\n".toList := by
  refine ⟨by decide, ?_, by decide, ?_⟩
  · have h := od_logger_text_context_group ⟨['1'], 0, 0⟩ ⟨⟨1, 0, 0, 0, 0⟩, 0⟩
      od_logger_event_t.OD_LOG none none "started".toList (by decide)
    refine List.eq_replicate_iff.2 ⟨by decide, fun b hb => ?_⟩
    obtain ⟨c, hc, rfl⟩ := List.mem_map.1 hb
    rw [(h.2 c hc).1]
    decide
  · have h := od_logger_text_context_group ⟨['1'], 0, 0⟩ ⟨⟨1, 0, 0, 0, 0⟩, 0⟩
      od_logger_event_t.OD_LOG none (some "server".toList) "started".toList (by decide)
    refine List.eq_replicate_iff.2 ⟨by decide, fun b hb => ?_⟩
    obtain ⟨c, hc, rfl⟩ := List.mem_map.1 hb
    rw [(h.2 c hc).1]
    decide

/-- C10 (evaluated at a failing input). With stdout logging enabled, one informational
and one error event make six sink calls: each line goes to the file sink, to the syslog
sink and to `write` on file descriptor 0; no call writes to file descriptor 1. -/
theorem od_logger_write_stdout_descriptor :
    od_logger_text ⟨['1'], 0, 1⟩ ⟨⟨1, 0, 0, 0, 0⟩, 0⟩ od_logger_event_t.OD_LOG
        none none "up".toList ++
    od_logger_text ⟨['1'], 0, 1⟩ ⟨⟨1, 0, 0, 0, 0⟩, 0⟩ od_logger_event_t.OD_LOG_ERROR
        none none "down".toList =
      [sink_call.od_logfile_write ("1 01 Jan 00:00:00.000  up\n".toList ++ [NUL]) 26,
       sink_call.od_logsystem od_logsystem_prio_t.OD_LOGSYSTEM_INFO
         ("1 01 Jan 00:00:00.000  up\n".toList ++ [NUL]) 26,
       sink_call.write 0 ("1 01 Jan 00:00:00.000  up\n".toList ++ [NUL]) 26,
       sink_call.od_logfile_write
         ("1 01 Jan 00:00:00.000  error: down\n".toList ++ [NUL]) 35,
       sink_call.od_logsystem od_logsystem_prio_t.OD_LOGSYSTEM_ERROR
         ("1 01 Jan 00:00:00.000  error: down\n".toList ++ [NUL]) 35,
       sink_call.write 0 ("1 01 Jan 00:00:00.000  error: down\n".toList ++ [NUL]) 35] := by
  decide

/-! ## Properties of the accept loop -/

theorem fed_append (t u : List call) : fed (t ++ u) = fed t ++ fed u := by
  simp [fed, List.filterMap_append]

theorem od_system_server_trace (config : od_config_t) (server : od_systemserver_t)
    (script : List accept_env) :
    (od_system_server config server script).trace =
      ((iterations script).map (fun e => (od_system_server_iter config server e).1)).flatten := by
  induction script with
  | nil => rfl
  | cons e script ih =>
    by_cases ha : e.accept_rc = -1
    · by_cases he : e.errno_ = EADDRINUSE
      · simp [od_system_server, iterations, od_system_server_iter, ha, he]
      · simp [od_system_server, iterations, od_system_server_iter, ha, he, ih]
    · have hc : (od_system_server_iter config server e).2 = loop_ctl.continue_ := by
        simp only [od_system_server_iter, ha, if_false]
        split
        · rfl
        · split <;> rfl
      have hi : od_system_server_iter config server e =
          ((od_system_server_iter config server e).1, loop_ctl.continue_) := by
        rw [← hc]
      simp only [od_system_server, iterations, ha, false_and, if_false, List.map_cons,
        List.flatten_cons]
      rw [hi]
      simp [ih]

theorem fed_od_system_server_iter (config : od_config_t) (server : od_systemserver_t)
    (e : accept_env) :
    fed (od_system_server_iter config server e).1 = (new_client_msg server e).toList := by
  by_cases ha : e.accept_rc = -1
  · by_cases he : e.errno_ = EADDRINUSE <;>
      simp [od_system_server_iter, new_client_msg, fully_successful, ha, he, fed]
  · by_cases hr : e.readahead_rc = -1
    · by_cases hk : config.keepalive > 0 <;>
        simp [od_system_server_iter, new_client_msg, fully_successful, ha, hr, hk, fed]
    · rcases hcl : e.client with _ | client <;> by_cases hk : config.keepalive > 0 <;>
        simp [od_system_server_iter, new_client_msg, fully_successful, ha, hr, hk, hcl, fed]

theorem new_client_msg_isSome (server : od_systemserver_t) (e : accept_env) :
    (new_client_msg server e).isSome = fully_successful e := by
  unfold new_client_msg
  by_cases h : fully_successful e = true
  · have hc : e.client.isSome = true := by
      simp only [fully_successful, Bool.and_eq_true] at h
      exact h.2
    simp [h, hc]
  · simp [h]

/-! ## The claims about the accept loop -/

/-- C1. Over any script of accept outcomes, the calls of `od_system_server` are those of
the iterations it performs, one after the other; an iteration feeds the worker pool
exactly the `NEW_CLIENT` message of a fully successful iteration (tag `OD_MCLIENT_NEW`,
a client whose id is generated with prefix `c`, whose io is the accepted socket and whose
config and TLS context are the listener's) and nothing otherwise; an iteration whose
set-readahead or client allocation fails ends by closing and freeing the accepted
socket and continues the loop; and the number of messages fed is the number of fully
successful iterations. -/
theorem od_system_server_feeds_new_clients (config : od_config_t)
    (server : od_systemserver_t) (script : List accept_env) :
    (od_system_server config server script).trace =
      ((iterations script).map
        (fun e => (od_system_server_iter config server e).1)).flatten ∧
    fed (od_system_server config server script).trace =
      (iterations script).filterMap (new_client_msg server) ∧
    (∀ e msg, new_client_msg server e = some msg →
      fully_successful e = true ∧
      fed (od_system_server_iter config server e).1 = [msg] ∧
      msg.type = od_msg_t.OD_MCLIENT_NEW ∧
      msg.data.id = od_idmgr_generate e.id_seed ['c'] ∧
      msg.data.id.id_prefix = ['c'] ∧
      msg.data.io = some e.client_io ∧
      msg.data.config_listen = some server.config ∧
      msg.data.tls = server.tls) ∧
    (∀ e, e.accept_rc ≠ -1 → (e.readahead_rc = -1 ∨ e.client = none) →
      [call.machine_close e.client_io, call.machine_io_free e.client_io] <:+
        (od_system_server_iter config server e).1 ∧
      fed (od_system_server_iter config server e).1 = [] ∧
      (od_system_server_iter config server e).2 = loop_ctl.continue_) ∧
    (fed (od_system_server config server script).trace).length =
      ((iterations script).filter fully_successful).length := by
  have hfed : fed (od_system_server config server script).trace =
      (iterations script).filterMap (new_client_msg server) := by
    rw [od_system_server_trace]
    induction iterations script with
    | nil => rfl
    | cons e l ih =>
      simp only [List.map_cons, List.flatten_cons, fed_append, ih,
        fed_od_system_server_iter, List.filterMap_cons]
      cases new_client_msg server e <;> rfl
  refine ⟨od_system_server_trace config server script, hfed, ?_, ?_, ?_⟩
  · intro e msg hm
    have hs : fully_successful e = true := by
      rw [← new_client_msg_isSome server e, hm]; rfl
    refine ⟨hs, by rw [fed_od_system_server_iter, hm]; rfl, ?_⟩
    simp only [new_client_msg, hs, if_true, Option.map_eq_some'] at hm
    obtain ⟨client, _, rfl⟩ := hm
    exact ⟨rfl, rfl, rfl, rfl, rfl, rfl⟩
  · intro e ha hf
    have hn : new_client_msg server e = none := by
      have : fully_successful e = false := by
        rcases hf with hf | hf <;> simp [fully_successful, hf]
      simp [new_client_msg, this]
    refine ⟨?_, by rw [fed_od_system_server_iter, hn]; rfl, ?_⟩
    · by_cases hr : e.readahead_rc = -1
      · simp only [od_system_server_iter, ha, hr, if_false, if_true]
        exact (List.suffix_cons _ _).trans (List.suffix_append _ _)
      · have hcl : e.client = none := hf.resolve_left hr
        simp only [od_system_server_iter, ha, hr, hcl, if_false]
        exact (List.suffix_cons _ _).trans (List.suffix_append _ _)
    · by_cases hr : e.readahead_rc = -1
      · simp [od_system_server_iter, ha, hr]
      · have hcl : e.client = none := hf.resolve_left hr
        simp [od_system_server_iter, ha, hr, hcl]
  · rw [hfed]
    induction iterations script with
    | nil => rfl
    | cons e l ih =>
      have hsome := new_client_msg_isSome server e
      simp only [List.filterMap_cons, List.filter_cons]
      cases hm : new_client_msg server e with
      | none =>
        rw [hm] at hsome
        have : fully_successful e = false := by rw [← hsome]; rfl
        simp [this, ih]
      | some msg =>
        rw [hm] at hsome
        have : fully_successful e = true := by rw [← hsome]; rfl
        simp [this, ih]

theorem od_system_server_feeds_new_clients_witness :
    (fed (od_system_server sample_config sample_server
        [accept_ok 10, readahead_failed 11, accept_failed 4, accept_ok 12,
         accept_failed EADDRINUSE, accept_ok 13]).trace).length = 2 :=
  (od_system_server_feeds_new_clients sample_config sample_server
    [accept_ok 10, readahead_failed 11, accept_failed 4, accept_ok 12,
     accept_failed EADDRINUSE, accept_ok 13]).2.2.2.2.trans (by decide)

/-- C2. When accept fails, the iteration makes exactly the accept call and one error log
with context `server` and format `accept failed: %s` (no client is allocated, nothing
is fed); it leaves the loop exactly when the errno is `EADDRINUSE`, in which case the
coroutine returns whatever the rest of the script holds, and otherwise the loop goes on
with the next accept. -/
theorem od_system_server_accept_failure (config : od_config_t)
    (server : od_systemserver_t) (e : accept_env) (script : List accept_env)
    (h : e.accept_rc = -1) :
    od_system_server_iter config server e =
      ([call.machine_accept server.io server.config.backlog,
        call.od_error "server" "accept failed: %s" [fmt_arg.s e.accept_error]],
       if e.errno_ = EADDRINUSE then loop_ctl.break_ else loop_ctl.continue_) ∧
    od_system_server config server (e :: script) =
      (if e.errno_ = EADDRINUSE then
        ⟨[call.machine_accept server.io server.config.backlog,
          call.od_error "server" "accept failed: %s" [fmt_arg.s e.accept_error]],
         outcome.returned⟩
      else
        ⟨[call.machine_accept server.io server.config.backlog,
          call.od_error "server" "accept failed: %s" [fmt_arg.s e.accept_error]] ++
           (od_system_server config server script).trace,
         (od_system_server config server script).state⟩) := by
  by_cases he : e.errno_ = EADDRINUSE
  · simp [od_system_server, od_system_server_iter, h, he]
  · simp [od_system_server, od_system_server_iter, h, he]

theorem od_system_server_accept_failure_witness :
    od_system_server sample_config sample_server
        [accept_failed 4, accept_failed EADDRINUSE, accept_ok 13] =
      ⟨[call.machine_accept (some 3) 128,
        call.od_error "server" "accept failed: %s" [fmt_arg.s "failure"],
        call.machine_accept (some 3) 128,
        call.od_error "server" "accept failed: %s" [fmt_arg.s "failure"]],
       outcome.returned⟩ := by
  rw [(od_system_server_accept_failure sample_config sample_server (accept_failed 4)
    [accept_failed EADDRINUSE, accept_ok 13] rfl).2]
  rw [(od_system_server_accept_failure sample_config sample_server
    (accept_failed EADDRINUSE) [accept_ok 13] rfl).2]
  decide

/-! ## Properties of the listener start-up -/

theorem count_started_cons (r : Int × List call) (rs : List (Int × List call)) :
    count_started (r :: rs) = (if r.1 = 0 then 1 else 0) + count_started rs := by
  unfold count_started
  by_cases h : r.1 = 0
  · simp [List.filter_cons, h]; ring
  · simp [List.filter_cons, h]

theorem count_started_append (rs ss : List (Int × List call)) :
    count_started (rs ++ ss) = count_started rs + count_started ss := by
  simp [count_started, List.filter_append]

theorem od_system_listen_chain_eq (listen : od_configlisten_t)
    (ai : List (addrinfo × server_start_env)) (binded : Int) :
    od_system_listen_chain listen ai binded =
      (binded + count_started (ai.map (fun a => od_system_server_start listen a.1 a.2)),
       ((ai.map (fun a => od_system_server_start listen a.1 a.2)).map
          (fun r => r.2)).flatten) := by
  induction ai generalizing binded with
  | nil => simp [od_system_listen_chain, count_started]
  | cons a ai ih =>
    obtain ⟨ad, env⟩ := a
    simp only [od_system_listen_chain, ih, List.map_cons, List.flatten_cons,
      count_started_cons]
    by_cases h : (od_system_server_start listen ad env).1 = 0
    · simp [h]; ring
    · simp [h]

theorem od_system_listen_from_eq (entries : List listen_env) (binded : Int)
    (h : well_resolved entries) :
    od_system_listen_from entries binded =
      some (binded + count_started (entries.map start_attempts).flatten,
            (entries.map listen_entry_calls).flatten) := by
  induction entries generalizing binded with
  | nil => simp [od_system_listen_from, count_started]
  | cons e entries ih =>
    have htail : well_resolved entries := fun x hx => h x (List.mem_cons_of_mem _ hx)
    have he := h e (List.mem_cons_self _ _)
    simp only [List.map_cons, List.flatten_cons, count_started_append]
    by_cases hrc : e.rc = 0
    · by_cases hhost : e.listen.host = "*"
      · simp only [od_system_listen_from, hrc, hhost, od_system_listen_chain_eq,
          ih _ htail, start_attempts, listen_entry_calls]
        simp
        ring
      · have hne := he hrc hhost
        obtain ⟨a, rest, hai⟩ := List.exists_cons_of_ne_nil hne
        obtain ⟨ad, env⟩ := a
        simp only [od_system_listen_from, hrc, hhost, hai, ih _ htail, start_attempts,
          listen_entry_calls]
        by_cases hs : (od_system_server_start e.listen ad env).1 = 0
        · simp [hs, count_started]; ring
        · simp [hs, count_started]
    · simp only [od_system_listen_from, ih _ htail, start_attempts, listen_entry_calls]
      simp [count_started, hrc]

/-! ## The claims about the listener start-up -/

/-- C3. For every list of listen entries (a successful resolution of a named host
yielding at least one address), `od_system_listen` returns, and its calls are, entry
after entry: the resolution, then the error log `failed to resolve %s:%d` alone when the
resolution fails, and otherwise a start on every resolved address when the host is `*`
and on the first resolved address only for any other host, whatever the earlier entries
and starts returned; the value returned is the number of those starts that returned 0. -/
theorem od_system_listen_counts_started (entries : List listen_env)
    (h : well_resolved entries) :
    od_system_listen entries =
      some (count_started (entries.map start_attempts).flatten,
            (entries.map listen_entry_calls).flatten) := by
  have := od_system_listen_from_eq entries 0 h
  simpa [od_system_listen] using this

theorem od_system_listen_counts_started_witness :
    well_resolved sample_entries ∧
    (od_system_listen sample_entries).map (fun r => r.1) = some 2 ∧
    (od_system_listen sample_entries).map
        (fun r => (r.2.filter (fun c => decide (c = call.malloc))).length) = some 3 := by
  have h := od_system_listen_counts_started sample_entries (by decide)
  refine ⟨by decide, ?_, ?_⟩
  · rw [h]; decide
  · rw [h]; decide

/-! ## Properties of the supervisor -/

theorem od_system_server_start_not_fatal (listen : od_configlisten_t) (ai : addrinfo)
    (env : server_start_env) :
    ∀ c ∈ (od_system_server_start listen ai env).2, not_fatal c := by
  unfold od_system_server_start od_system_server_start_io tls_free_if_set
  dsimp only
  repeat' split
  all_goals
    simp [List.forall_mem_append, not_fatal, bind_failure_log, is_exit]

theorem od_system_listen_chain_not_fatal (listen : od_configlisten_t)
    (ai : List (addrinfo × server_start_env)) (binded : Int) :
    ∀ c ∈ (od_system_listen_chain listen ai binded).2, not_fatal c := by
  induction ai generalizing binded with
  | nil => simp [od_system_listen_chain]
  | cons a ai ih =>
    obtain ⟨ad, env⟩ := a
    intro c hc
    simp only [od_system_listen_chain, List.mem_append] at hc
    rcases hc with hc | hc
    · exact od_system_server_start_not_fatal listen ad env c hc
    · exact ih _ c hc

theorem od_system_listen_from_not_fatal (entries : List listen_env) (binded : Int)
    (r : Int × List call) (h : od_system_listen_from entries binded = some r) :
    ∀ c ∈ r.2, not_fatal c := by
  induction entries generalizing binded r with
  | nil =>
    simp only [od_system_listen_from, Option.some.injEq] at h
    subst h
    simp
  | cons e entries ih =>
    simp only [od_system_listen_from] at h
    split at h
    · obtain ⟨rest, hrest, rfl⟩ := Option.map_eq_some'.1 h
      have := ih _ rest hrest
      intro c hc
      simp only [List.mem_append, List.mem_cons, List.mem_singleton, List.not_mem_nil,
        or_false] at hc
      rcases hc with (rfl | rfl) | hc
      · simp [not_fatal, bind_failure_log, is_exit]
      · simp [not_fatal, bind_failure_log, is_exit]
      · exact this c hc
    · split at h
      · split at h
        · exact absurd h (by simp)
        · rename_i ad env tail hai
          obtain ⟨rest, hrest, rfl⟩ := Option.map_eq_some'.1 h
          have := ih _ rest hrest
          intro c hc
          simp only [List.mem_append, List.mem_cons, List.mem_singleton,
            List.not_mem_nil, or_false] at hc
          rcases hc with (rfl | hc) | hc
          · simp [not_fatal, bind_failure_log, is_exit]
          · exact od_system_server_start_not_fatal _ _ _ c hc
          · exact this c hc
      · obtain ⟨rest, hrest, rfl⟩ := Option.map_eq_some'.1 h
        have := ih _ rest hrest
        intro c hc
        simp only [List.mem_append, List.mem_cons, List.mem_singleton,
          List.not_mem_nil, or_false] at hc
        rcases hc with (rfl | hc) | hc
        · simp [not_fatal, bind_failure_log, is_exit]
        · exact od_system_listen_chain_not_fatal _ _ _ c hc
        · exact this c hc

theorem startup_calls_not_fatal (config : od_config_t) :
    ∀ c ∈ startup_calls config, not_fatal c := by
  simp [startup_calls, not_fatal, bind_failure_log, is_exit]

/-! ## The claims about the supervisor -/

/-- C4. Once the router, console, cron, worker pool and signal-handler coroutine have
started and `od_system_listen` has returned `binded` with the calls `listen_trace`: when
`binded` is 0, `od_system` ends with the error log `failed to bind any listen address`
followed by `exit(1)`; when an address was bound it returns, and its calls contain
neither that log nor an `exit`; and an empty listen list binds zero addresses. -/
theorem od_system_zero_bound_exits (config : od_config_t) (env : system_env)
    (binded : Int) (listen_trace : List call)
    (hrouter : env.router_rc ≠ -1) (hconsole : env.console_rc ≠ -1)
    (hcron : env.cron_rc ≠ -1) (hpool : env.workerpool_rc ≠ -1)
    (hsignal : env.coroutine_id ≠ -1)
    (hlisten : od_system_listen env.listen = some (binded, listen_trace)) :
    (binded = 0 →
      od_system config env =
        some ⟨startup_calls config ++ listen_trace ++
                [call.od_error "system" "failed to bind any listen address" [],
                 call.exit 1],
              outcome.exited 1⟩) ∧
    (binded ≠ 0 →
      od_system config env =
        some ⟨startup_calls config ++ listen_trace, outcome.returned⟩ ∧
      call.od_error "system" "failed to bind any listen address" [] ∉
        startup_calls config ++ listen_trace ∧
      ∀ status, call.exit status ∉ startup_calls config ++ listen_trace) ∧
    (env.listen = [] → binded = 0) := by
  have hclean : ∀ c ∈ startup_calls config ++ listen_trace, not_fatal c := by
    intro c hc
    rcases List.mem_append.1 hc with hc | hc
    · exact startup_calls_not_fatal config c hc
    · exact od_system_listen_from_not_fatal env.listen 0 (binded, listen_trace) hlisten c hc
  refine ⟨fun hb => ?_, fun hb => ⟨?_, ?_, ?_⟩, fun hnil => ?_⟩
  · simp [od_system, hrouter, hconsole, hcron, hpool, hsignal, hlisten, hb, startup_calls]
  · simp [od_system, hrouter, hconsole, hcron, hpool, hsignal, hlisten, hb, startup_calls]
  · intro hmem
    exact (hclean _ hmem).1 rfl
  · intro status hmem
    have := (hclean _ hmem).2
    simp [is_exit] at this
  · rw [hnil] at hlisten
    simp only [od_system_listen, od_system_listen_from, Option.some.injEq,
      Prod.mk.injEq] at hlisten
    exact hlisten.1.symm

theorem od_system_zero_bound_exits_witness :
    od_system sample_config (system_ok []) =
      some ⟨[call.od_router_start, call.od_console_start, call.od_cron_start,
             call.od_workerpool_start 2,
             call.machine_coroutine_create coroutine_fn.od_system_signal_handler,
             call.od_error "system" "failed to bind any listen address" [],
             call.exit 1],
            outcome.exited 1⟩ :=
  (od_system_zero_bound_exits sample_config (system_ok []) 0 []
    (by decide) (by decide) (by decide) (by decide) (by decide) rfl).1 rfl

/-- C5. `od_system` makes its start-up calls in the order router, console, cron, worker
pool (with the configured worker count), signal-handler coroutine, listeners. When the
first `k` of the five calls succeed and the next one returns -1, `od_system` returns after
exactly the first `k + 1` calls (adding only the error log when it is the signal-handler
coroutine that failed): no later step runs. When all five succeed, the calls of
`od_system_listen` follow them. -/
theorem od_system_startup_order (config : od_config_t) (env : system_env) :
    (steps_succeeded env < 5 →
      od_system config env =
        some ⟨(startup_calls config).take (steps_succeeded env + 1) ++
                (if steps_succeeded env = 4 then
                  [call.od_error "system" "failed to start signal handler" []]
                 else []),
              outcome.returned⟩) ∧
    (steps_succeeded env = 5 →
      od_system config env =
        (od_system_listen env.listen).map (fun r =>
          if r.1 = 0 then
            ⟨startup_calls config ++ r.2 ++
               [call.od_error "system" "failed to bind any listen address" [],
                call.exit 1],
             outcome.exited 1⟩
          else
            ⟨startup_calls config ++ r.2, outcome.returned⟩)) := by
  by_cases h1 : env.router_rc = -1
  · simp [od_system, steps_succeeded, startup_results, startup_calls, h1]
  by_cases h2 : env.console_rc = -1
  · simp [od_system, steps_succeeded, startup_results, startup_calls, h1, h2]
  by_cases h3 : env.cron_rc = -1
  · simp [od_system, steps_succeeded, startup_results, startup_calls, h1, h2, h3]
  by_cases h4 : env.workerpool_rc = -1
  · simp [od_system, steps_succeeded, startup_results, startup_calls, h1, h2, h3, h4]
  by_cases h5 : env.coroutine_id = -1
  · simp [od_system, steps_succeeded, startup_results, startup_calls, h1, h2, h3, h4, h5]
  have hk : steps_succeeded env = 5 := by
    simp [steps_succeeded, startup_results, h1, h2, h3, h4, h5]
  refine ⟨fun hlt => absurd hlt (by omega), fun _ => ?_⟩
  simp only [od_system, h1, h2, h3, h4, h5, if_false, startup_calls]
  rcases hl : od_system_listen env.listen with _ | ⟨rc, lt⟩
  · rfl
  · by_cases hrc : rc = 0
    · simp [hrc]
    · simp [hrc]

theorem od_system_startup_order_witness :
    od_system sample_config { system_ok sample_entries with cron_rc := -1 } =
      some ⟨[call.od_router_start, call.od_console_start, call.od_cron_start],
            outcome.returned⟩ :=
  ((od_system_startup_order sample_config
    { system_ok sample_entries with cron_rc := -1 }).1 (by decide)).trans (by decide)

/-! ## The claims about the signal handler -/

theorem od_system_signal_loop_sighup (n : Nat) (waits : List Int) :
    od_system_signal_loop (List.replicate n SIGHUP ++ waits) =
      ⟨sighup_rounds n ++ (od_system_signal_loop waits).trace,
       (od_system_signal_loop waits).state⟩ := by
  induction n with
  | zero => simp [sighup_rounds]
  | succ n ih =>
    have e1 : ¬ (SIGHUP = -1) := by decide
    have e2 : ¬ (SIGHUP = SIGTERM) := by decide
    have e3 : ¬ (SIGHUP = SIGINT) := by decide
    simp only [List.replicate_succ, List.cons_append, od_system_signal_loop, e1, e2, e3,
      if_false, if_true]
    have ih2 : od_system_signal_loop ((List.replicate n SIGHUP).append waits) = _ := ih
    rw [ih2]
    simp [sighup_rounds, List.replicate_succ]

/-- C6. When the signal mask is installed: after any number `n` of `SIGHUP`s, each
logged as `SIGHUP received, skipping` without an exit, the handler is waiting for the
next signal; a `SIGTERM` or `SIGINT` received then is logged by name
(`SIGTERM received, shutting down`, `SIGINT received, shutting down`) and followed by
`exit(0)`, whatever signals would come after. When installing the mask fails, the handler
logs `failed to init signal handler` once and returns without calling `exit`. -/
theorem od_system_signal_handler_behaviour (init_rc : Int) (n : Nat) (waits : List Int)
    (hinit : init_rc ≠ -1) :
    od_system_signal_handler init_rc (List.replicate n SIGHUP) =
      ⟨[call.machine_signal_init] ++ sighup_rounds n, outcome.blocked⟩ ∧
    od_system_signal_handler init_rc (List.replicate n SIGHUP ++ SIGTERM :: waits) =
      ⟨[call.machine_signal_init] ++ sighup_rounds n ++
         [call.machine_signal_wait,
          call.od_log "system" "SIGTERM received, shutting down" [],
          call.exit 0],
       outcome.exited 0⟩ ∧
    od_system_signal_handler init_rc (List.replicate n SIGHUP ++ SIGINT :: waits) =
      ⟨[call.machine_signal_init] ++ sighup_rounds n ++
         [call.machine_signal_wait,
          call.od_log "system" "SIGINT received, shutting down" [],
          call.exit 0],
       outcome.exited 0⟩ ∧
    (∀ c ∈ sighup_rounds n, is_exit c = false) ∧
    od_system_signal_handler (-1) waits =
      ⟨[call.machine_signal_init,
        call.od_error "system" "failed to init signal handler" []],
       outcome.returned⟩ := by
  have e1 : ¬ (SIGTERM = -1) := by decide
  have e2 : ¬ (SIGINT = -1) := by decide
  have e3 : ¬ (SIGINT = SIGTERM) := by decide
  refine ⟨?_, ?_, ?_, ?_, ?_⟩
  · have := od_system_signal_loop_sighup n []
    rw [List.append_nil] at this
    simp [od_system_signal_handler, hinit, this, od_system_signal_loop]
  · simp [od_system_signal_handler, hinit, od_system_signal_loop_sighup,
      od_system_signal_loop, e1]
  · simp [od_system_signal_handler, hinit, od_system_signal_loop_sighup,
      od_system_signal_loop, e2, e3]
  · intro c hc
    simp only [sighup_rounds, List.mem_flatten, List.mem_replicate] at hc
    obtain ⟨l, ⟨_, rfl⟩, hc⟩ := hc
    simp only [List.mem_cons, List.mem_singleton, List.not_mem_nil, or_false] at hc
    rcases hc with rfl | rfl <;> rfl
  · simp [od_system_signal_handler]

theorem od_system_signal_handler_behaviour_witness :
    od_system_signal_handler 0 [SIGHUP, SIGHUP, SIGTERM, SIGHUP] =
      ⟨[call.machine_signal_init,
        call.machine_signal_wait, call.od_log "system" "SIGHUP received, skipping" [],
        call.machine_signal_wait, call.od_log "system" "SIGHUP received, skipping" [],
        call.machine_signal_wait,
        call.od_log "system" "SIGTERM received, shutting down" [],
        call.exit 0],
       outcome.exited 0⟩ :=
  (od_system_signal_handler_behaviour 0 2 [SIGHUP] (by decide)).2.1

end Odyssey
